import Mathlib

/-!
Shallow embedding of the coordination state engine of the `agent-orchestration`
repository (src/models.ts, src/database.ts, src/tools/agent.ts,
src/tools/coordination.ts, src/tools/task.ts).

Conventions of the embedding:
* SQLite tables become Lean lists inside a `Database` structure; every
  mutating method of `OrchestratorDatabase` becomes a pure function
  `Database → ... → result × Database`.
* `Date` values (stored as ISO strings and compared lexicographically, which
  agrees with time order) become `Int` timestamps in milliseconds; `new Date()`
  becomes an explicit `now : Int` argument, and `x.getTime() + s * 1000`
  becomes `now + s * 1000`.
* `ulid()` becomes an explicit fresh-id argument.
* JavaScript truthiness tests on optional numbers (`if (params.ttlSeconds)`,
  `params.timeoutSeconds ? ... : null`) are modelled by a match that treats
  `none` and `some 0` alike, since `0` is falsy.
* The append-only events table is write-only in the engine (no modelled
  operation reads it back), so `logEvent` calls are dropped from the state;
  likewise the free-form `metadata` of agents and locks, and the per-server
  "current agent" pointer, which no verified operation reads.
-/

namespace Orch

inductive AgentRole where
  | main
  | sub
deriving DecidableEq

inductive AgentStatus where
  | active
  | idle
  | busy
  | offline
deriving DecidableEq

inductive TaskStatus where
  | pending
  | assigned
  | inProgress
  | completed
  | failed
  | cancelled
deriving DecidableEq

inductive TaskPriority where
  | low
  | normal
  | high
  | urgent
deriving DecidableEq

structure Agent where
  id : String
  name : String
  role : AgentRole
  status : AgentStatus
  capabilities : List String
  registeredAt : Int
  lastHeartbeat : Int
deriving DecidableEq

structure Task where
  id : String
  title : String
  description : String
  status : TaskStatus
  priority : TaskPriority
  createdBy : Option String
  assignedTo : Option String
  dependencies : List String
  metadata : List (String × String)
  output : Option String
  createdAt : Int
  updatedAt : Int
  startedAt : Option Int
  completedAt : Option Int
deriving DecidableEq

structure MemoryEntry where
  id : String
  key : String
  value : String
  nspace : String
  createdBy : Option String
  ttlSeconds : Option Int
  createdAt : Int
  updatedAt : Int
  expiresAt : Option Int
deriving DecidableEq

structure Lock where
  id : String
  resource : String
  heldBy : String
  acquiredAt : Int
  expiresAt : Option Int
deriving DecidableEq

structure Database where
  agents : List Agent
  tasks : List Task
  memory : List MemoryEntry
  locks : List Lock
deriving DecidableEq

/-- Factory `createAgent` from models.ts. -/
def Models.createAgent (now : Int) (newId : String) (name : String) (role : AgentRole)
    (capabilities : List String) (status : AgentStatus) : Agent :=
  { id := newId
    name := name
    role := role
    status := status
    capabilities := capabilities
    registeredAt := now
    lastHeartbeat := now }

/-- Factory `createTask` from models.ts (callers of the modelled tools never
pass `status`/`startedAt`, so the defaults are inlined). -/
def Models.createTask (now : Int) (newId : String) (title description : String)
    (priority : TaskPriority) (createdBy assignedTo : Option String)
    (dependencies : List String) : Task :=
  { id := newId
    title := title
    description := description
    status := TaskStatus.pending
    priority := priority
    createdBy := createdBy
    assignedTo := assignedTo
    dependencies := dependencies
    metadata := []
    output := none
    createdAt := now
    updatedAt := now
    startedAt := none
    completedAt := none }

/-- Factory `createMemoryEntry` from models.ts. The guard `if (params.ttlSeconds)`
is JavaScript truthiness: `null`/`undefined`/`0` all leave `expiresAt` null. -/
def Models.createMemoryEntry (now : Int) (newId : String) (key value nspace : String)
    (createdBy : Option String) (ttlSeconds : Option Int) : MemoryEntry :=
  let expiresAt : Option Int :=
    match ttlSeconds with
    | some t => if t = 0 then none else some (now + t * 1000)
    | none => none
  { id := newId
    key := key
    value := value
    nspace := nspace
    createdBy := createdBy
    ttlSeconds := ttlSeconds
    createdAt := now
    updatedAt := now
    expiresAt := expiresAt }

/-- Factory `createLock` from models.ts: `timeoutSeconds ? now+t*1000 : null`
(truthiness again, so a 0 timeout means unbounded). -/
def Models.createLock (now : Int) (newId : String) (resource heldBy : String)
    (timeoutSeconds : Option Int) : Lock :=
  let expiresAt : Option Int :=
    match timeoutSeconds with
    | some t => if t = 0 then none else some (now + t * 1000)
    | none => none
  { id := newId
    resource := resource
    heldBy := heldBy
    acquiredAt := now
    expiresAt := expiresAt }

/-- OrchestratorDatabase.createAgent: INSERT INTO agents. -/
def Database.createAgent (db : Database) (now : Int) (newId : String)
    (name : String) (role : AgentRole) (capabilities : List String)
    (status : AgentStatus) : Agent × Database :=
  let agent := Models.createAgent now newId name role capabilities status
  (agent, { db with agents := db.agents ++ [agent] })

/-- OrchestratorDatabase.getAgent: SELECT * FROM agents WHERE id = ?. -/
def Database.getAgent (db : Database) (agentId : String) : Option Agent :=
  db.agents.find? (fun a => decide (a.id = agentId))

/-- OrchestratorDatabase.getAgentByName: SELECT * FROM agents WHERE name = ?. -/
def Database.getAgentByName (db : Database) (name : String) : Option Agent :=
  db.agents.find? (fun a => decide (a.name = name))

/-- OrchestratorDatabase.updateAgentHeartbeat: UPDATE agents SET
last_heartbeat (and status if provided) WHERE id = ?; returns changes > 0. -/
def Database.updateAgentHeartbeat (db : Database) (now : Int) (agentId : String)
    (status : Option AgentStatus) : Bool × Database :=
  let update : Agent → Agent := fun a =>
    match status with
    | some s => { a with lastHeartbeat := now, status := s }
    | none => { a with lastHeartbeat := now }
  let agents := db.agents.map (fun a => if a.id = agentId then update a else a)
  (db.agents.any (fun a => decide (a.id = agentId)), { db with agents := agents })

/-- OrchestratorDatabase.releaseAgentLocks: DELETE FROM locks WHERE held_by = ?;
returns the number of released locks. -/
def Database.releaseAgentLocks (db : Database) (agentId : String) : Nat × Database :=
  let released := db.locks.filter (fun l => decide (l.heldBy = agentId))
  (released.length, { db with locks := db.locks.filter (fun l => !decide (l.heldBy = agentId)) })

/-- OrchestratorDatabase.deleteAgent: first releases any locks held by this
agent, then DELETE FROM agents WHERE id = ?; returns changes > 0. -/
def Database.deleteAgent (db : Database) (agentId : String) : Bool × Database :=
  let (_, db) := db.releaseAgentLocks agentId
  let existed := db.agents.any (fun a => decide (a.id = agentId))
  (existed, { db with agents := db.agents.filter (fun a => !decide (a.id = agentId)) })

/-- OrchestratorDatabase.createTask: INSERT INTO tasks. -/
def Database.createTask (db : Database) (now : Int) (newId : String)
    (title description : String) (priority : TaskPriority)
    (createdBy assignedTo : Option String) (dependencies : List String) :
    Task × Database :=
  let task := Models.createTask now newId title description priority createdBy assignedTo dependencies
  (task, { db with tasks := db.tasks ++ [task] })

/-- OrchestratorDatabase.getTask: SELECT * FROM tasks WHERE id = ?. -/
def Database.getTask (db : Database) (taskId : String) : Option Task :=
  db.tasks.find? (fun t => decide (t.id = taskId))

/-- Rank of the SQL ordering clause CASE priority WHEN 'urgent' THEN 1
WHEN 'high' THEN 2 WHEN 'normal' THEN 3 ELSE 4 END. -/
def priorityRank : TaskPriority → Nat
  | TaskPriority.urgent => 1
  | TaskPriority.high => 2
  | TaskPriority.normal => 3
  | TaskPriority.low => 4

/-- Ordering used by listTasks and getNextAvailableTask:
priority rank first, then created_at ascending. -/
def taskLe (a b : Task) : Prop :=
  priorityRank a.priority < priorityRank b.priority ∨
    (priorityRank a.priority = priorityRank b.priority ∧ a.createdAt ≤ b.createdAt)

instance : DecidableRel taskLe := fun a b => by
  unfold taskLe; exact inferInstance

instance : IsTotal Task taskLe :=
  ⟨fun a b => by unfold taskLe; omega⟩

instance : IsTrans Task taskLe :=
  ⟨fun a b c hab hbc => by unfold taskLe at hab hbc ⊢; omega⟩

/-- Filters of OrchestratorDatabase.listTasks. -/
structure TaskFilters where
  status : Option TaskStatus := none
  assignedTo : Option String := none
  createdBy : Option String := none

/-- WHERE clause of listTasks (an absent filter adds no condition; a filter on
assigned_to/created_by matches only non-null columns, as SQL equality does). -/
def matchesTaskFilters (f : TaskFilters) (t : Task) : Bool :=
  (match f.status with | none => true | some s => decide (t.status = s)) &&
    (match f.assignedTo with | none => true | some a => decide (t.assignedTo = some a)) &&
    (match f.createdBy with | none => true | some c => decide (t.createdBy = some c))

/-- OrchestratorDatabase.listTasks: filtered SELECT ordered by priority rank
then created_at ascending. -/
def Database.listTasks (db : Database) (f : TaskFilters) : List Task :=
  List.insertionSort taskLe (db.tasks.filter (matchesTaskFilters f))

/-- Merge of `{ ...task.metadata, ...updates.metadata }` (JavaScript object
spread: keys of the old object keep their position but take the new value;
new-only keys are appended). -/
def mergeMetadata (old upd : List (String × String)) : List (String × String) :=
  old.map (fun p =>
      match upd.find? (fun q => decide (q.1 = p.1)) with
      | some q => q
      | none => p) ++
    upd.filter (fun q => !old.any (fun p => decide (p.1 = q.1)))

/-- Update record of OrchestratorDatabase.updateTask; an outer `none` models a
field absent from `updates` (`!== undefined` in the source). -/
structure TaskUpdates where
  status : Option TaskStatus := none
  assignedTo : Option (Option String) := none
  output : Option String := none
  metadata : Option (List (String × String)) := none

/-- OrchestratorDatabase.updateTask: re-reads the task, builds the SET clauses
(status with its startedAt/completedAt side effects, assignedTo, output,
merged metadata, always updated_at), applies them WHERE id = ?, then re-reads.
Note the asymmetry of the source: started_at is guarded by `!task.startedAt`,
completed_at is stamped on every update to a terminal status. -/
def Database.updateTask (db : Database) (now : Int) (taskId : String)
    (updates : TaskUpdates) : Option Task × Database :=
  match db.getTask taskId with
  | none => (none, db)
  | some task =>
    let applyRow : Task → Task := fun r =>
      let r := { r with updatedAt := now }
      let r :=
        match updates.status with
        | none => r
        | some s =>
          let r := { r with status := s }
          if s = TaskStatus.inProgress ∧ task.startedAt = none then
            { r with startedAt := some now }
          else if s = TaskStatus.completed ∨ s = TaskStatus.failed ∨ s = TaskStatus.cancelled then
            { r with completedAt := some now }
          else r
      let r :=
        match updates.assignedTo with
        | none => r
        | some a => { r with assignedTo := a }
      let r :=
        match updates.output with
        | none => r
        | some o => { r with output := some o }
      match updates.metadata with
      | none => r
      | some m => { r with metadata := mergeMetadata task.metadata m }
    let db := { db with tasks := db.tasks.map (fun r => if r.id = taskId then applyRow r else r) }
    (db.getTask taskId, db)

/-- OrchestratorDatabase.checkDependenciesMet: true if the task is missing or
has no dependencies; otherwise every dependency must exist and be completed. -/
def Database.checkDependenciesMet (db : Database) (taskId : String) : Bool :=
  match db.getTask taskId with
  | none => true
  | some task =>
    if task.dependencies.isEmpty then true
    else
      task.dependencies.all (fun depId =>
        match db.getTask depId with
        | none => false
        | some depTask => decide (depTask.status = TaskStatus.completed))

/-- OrchestratorDatabase.getNextAvailableTask: tasks that are pending or
assigned to this agent, in priority/creation order; first with met deps. -/
def Database.getNextAvailableTask (db : Database) (agentId : String) : Option Task :=
  let rows := List.insertionSort taskLe (db.tasks.filter (fun t =>
    decide (t.status = TaskStatus.pending) ||
      (decide (t.status = TaskStatus.assigned) && decide (t.assignedTo = some agentId))))
  rows.find? (fun t => db.checkDependenciesMet t.id)

/-- Private cleanupExpiredMemory: DELETE FROM memory WHERE expires_at IS NOT
NULL AND expires_at < now. -/
def Database.cleanupExpiredMemory (db : Database) (now : Int) : Database :=
  { db with memory := db.memory.filter (fun e =>
      match e.expiresAt with
      | some x => !decide (x < now)
      | none => true) }

/-- OrchestratorDatabase.setMemory: INSERT ... ON CONFLICT(namespace, key) DO
UPDATE SET value, updated_at, ttl_seconds, expires_at = excluded (id,
created_at, created_by of the conflicting row are kept). -/
def Database.setMemory (db : Database) (now : Int) (newId : String)
    (key value nspace : String) (createdBy : Option String)
    (ttlSeconds : Option Int) : MemoryEntry × Database :=
  let entry := Models.createMemoryEntry now newId key value nspace createdBy ttlSeconds
  if db.memory.any (fun e => decide (e.nspace = nspace) && decide (e.key = key)) then
    let memory := db.memory.map (fun e =>
      if e.nspace = nspace ∧ e.key = key then
        { e with
            value := entry.value
            updatedAt := entry.updatedAt
            ttlSeconds := entry.ttlSeconds
            expiresAt := entry.expiresAt }
      else e)
    (entry, { db with memory := memory })
  else
    (entry, { db with memory := db.memory ++ [entry] })

/-- OrchestratorDatabase.getMemory: expiry sweep first, then SELECT * FROM
memory WHERE namespace = ? AND key = ?. -/
def Database.getMemory (db : Database) (now : Int) (key : String)
    (nspace : String) : Option MemoryEntry × Database :=
  let db := db.cleanupExpiredMemory now
  (db.memory.find? (fun e => decide (e.nspace = nspace) && decide (e.key = key)), db)

/-- OrchestratorDatabase.listMemory: expiry sweep first, then SELECT * FROM
memory WHERE namespace = ? ORDER BY key. -/
def Database.listMemory (db : Database) (now : Int) (nspace : String) :
    List MemoryEntry × Database :=
  let db := db.cleanupExpiredMemory now
  (List.insertionSort (fun a b => a.key ≤ b.key)
      (db.memory.filter (fun e => decide (e.nspace = nspace))),
    db)

/-- Private cleanupExpiredLocks: DELETE FROM locks WHERE expires_at IS NOT
NULL AND expires_at < now. -/
def Database.cleanupExpiredLocks (db : Database) (now : Int) : Database :=
  { db with locks := db.locks.filter (fun l =>
      match l.expiresAt with
      | some x => !decide (x < now)
      | none => true) }

/-- OrchestratorDatabase.acquireLock: sweep expired locks, then an atomic
INSERT keyed by the UNIQUE resource column; a uniqueness conflict (a row with
this resource already present) returns null and leaves the table unchanged. -/
def Database.acquireLock (db : Database) (now : Int) (newId : String)
    (resource heldBy : String) (timeoutSeconds : Option Int) :
    Option Lock × Database :=
  let db := db.cleanupExpiredLocks now
  if db.locks.any (fun l => decide (l.resource = resource)) then
    (none, db)
  else
    let lock := Models.createLock now newId resource heldBy timeoutSeconds
    (some lock, { db with locks := db.locks ++ [lock] })

/-- OrchestratorDatabase.releaseLock: DELETE FROM locks WHERE resource = ? AND
held_by = ?; returns changes > 0. -/
def Database.releaseLock (db : Database) (resource agentId : String) :
    Bool × Database :=
  let hit := db.locks.any (fun l => decide (l.resource = resource) && decide (l.heldBy = agentId))
  (hit, { db with locks := db.locks.filter (fun l =>
      !(decide (l.resource = resource) && decide (l.heldBy = agentId))) })

/-- OrchestratorDatabase.checkLock: sweep expired locks, then SELECT * FROM
locks WHERE resource = ?. -/
def Database.checkLock (db : Database) (now : Int) (resource : String) :
    Option Lock × Database :=
  let db := db.cleanupExpiredLocks now
  (db.locks.find? (fun l => decide (l.resource = resource)), db)

/-- Outcome of the agent_register tool (src/tools/agent.ts), keeping the
information its two distinct success texts carry. -/
inductive RegisterResult where
  | reconnected (id name : String)
  | registered (id name : String)
deriving DecidableEq

/-- Tool agent_register: a name that already exists is a reconnect — return
the existing agent and mark it active via heartbeat; otherwise create a new
active agent. (The server-local current-agent pointer is not modelled.) -/
def agent_register (db : Database) (now : Int) (newId : String)
    (name : String) (role : AgentRole) (capabilities : List String) :
    RegisterResult × Database :=
  match db.getAgentByName name with
  | some existing =>
    let (_, db) := db.updateAgentHeartbeat now existing.id (some AgentStatus.active)
    (RegisterResult.reconnected existing.id existing.name, db)
  | none =>
    let (agent, db) := db.createAgent now newId name role capabilities AgentStatus.active
    (RegisterResult.registered agent.id agent.name, db)

/-- Outcome of the lock_acquire tool (src/tools/coordination.ts), one
constructor per distinct response text. -/
inductive LockAcquireResult where
  | notRegistered
  | alreadyHeldByYou
  | denied (holder : String)
  | acquired (resource : String)
  | failed
deriving DecidableEq

/-- Tool lock_acquire: reject unregistered callers, check the current holder
(which sweeps expired locks), deny with the holder id when another live lock
exists, otherwise attempt the atomic insert. -/
def lock_acquire (db : Database) (now : Int) (newId : String)
    (currentAgentId : Option String) (resource : String)
    (timeoutSeconds : Option Int) : LockAcquireResult × Database :=
  match currentAgentId with
  | none => (LockAcquireResult.notRegistered, db)
  | some agentId =>
    let (existing, db) := db.checkLock now resource
    match existing with
    | some lk =>
      if lk.heldBy = agentId then (LockAcquireResult.alreadyHeldByYou, db)
      else (LockAcquireResult.denied lk.heldBy, db)
    | none =>
      let (acquired, db) := db.acquireLock now newId resource agentId timeoutSeconds
      match acquired with
      | some lk => (LockAcquireResult.acquired lk.resource, db)
      | none => (LockAcquireResult.failed, db)

/-- Outcome of the task_claim tool (src/tools/task.ts), one constructor per
distinct response text. -/
inductive TaskClaimResult where
  | notRegistered
  | notFound (taskId : String)
  | noAvailable
  | depsNotMet
  | claimed (taskId : String)
  | failed
deriving DecidableEq

/-- Tool task_claim: resolve the task (given id, or next available), check
dependencies, then update to in_progress assigned to the caller. -/
def task_claim (db : Database) (now : Int) (currentAgentId : Option String)
    (taskId : Option String) : TaskClaimResult × Database :=
  match currentAgentId with
  | none => (TaskClaimResult.notRegistered, db)
  | some agentId =>
    match taskId, (match taskId with
        | some tid => db.getTask tid
        | none => db.getNextAvailableTask agentId) with
    | some tid, none => (TaskClaimResult.notFound tid, db)
    | none, none => (TaskClaimResult.noAvailable, db)
    | _, some task =>
      if db.checkDependenciesMet task.id then
        let (updated, db) := db.updateTask now task.id
          { status := some TaskStatus.inProgress, assignedTo := some (some agentId) }
        match updated with
        | some t => (TaskClaimResult.claimed t.id, db)
        | none => (TaskClaimResult.failed, db)
      else (TaskClaimResult.depsNotMet, db)

/-! Claim C1: terminal stamping of completedAt. -/

/-- A completed task whose completedAt was stamped at time 5. -/
def exTask1 : Task :=
  { id := "t1", title := "T", description := "", status := TaskStatus.completed,
    priority := TaskPriority.normal, createdBy := none, assignedTo := none,
    dependencies := [], metadata := [], output := none,
    createdAt := 0, updatedAt := 5, startedAt := some 1, completedAt := some 5 }

/-- Store holding just exTask1. -/
def exDb1 : Database := { agents := [], tasks := [exTask1], memory := [], locks := [] }

/-- C1 fails on the code: task t1 already has completedAt = 5, yet a second
update to the terminal status completed at time 10 overwrites completedAt with
10 instead of leaving it unchanged (updateTask guards started_at with
`!task.startedAt` but stamps completed_at unconditionally). -/
theorem c1_counterexample :
    (exDb1.getTask "t1").map Task.completedAt = some (some 5) ∧
      ((exDb1.updateTask 10 "t1" { status := some TaskStatus.completed }).1).map
        Task.completedAt = some (some 10) := by
  decide

/-- C1 (amended): every update that sets a task's status to a terminal state
(completed, failed, or cancelled) stamps completedAt with the update time,
whether or not completedAt was already set; only startedAt is guarded to be
set once. -/
theorem updateTask_terminal_restamps_completedAt
    (db : Database) (now : Int) (taskId : String) (u : TaskUpdates)
    (s : TaskStatus) (task : Task)
    (hget : db.getTask taskId = some task)
    (hs : u.status = some s)
    (hterm : s = TaskStatus.completed ∨ s = TaskStatus.failed ∨ s = TaskStatus.cancelled) :
    ∀ r ∈ (db.updateTask now taskId u).2.tasks, r.id = taskId →
      r.completedAt = some now := by
  intro r hr hid
  unfold Database.updateTask at hr
  rw [hget] at hr
  simp only [List.mem_map] at hr
  obtain ⟨a, _, rfl⟩ := hr
  by_cases h : a.id = taskId
  · have hnp : ¬(s = TaskStatus.inProgress ∧ task.startedAt = none) := by
      rcases hterm with h1 | h1 | h1 <;> simp [h1]
    simp only [h, if_pos, if_true, hs]
    rw [if_neg hnp, if_pos hterm]
    cases u.assignedTo <;> cases u.output <;> cases u.metadata <;> rfl
  · rw [if_neg h] at hid ⊢
    exact absurd hid h

/-- Witness for the amended C1 theorem at the concrete store exDb1, applied to
the one stored row (t1 after the update at time 10). -/
theorem updateTask_terminal_restamps_completedAt_witness :
    Task.completedAt { exTask1 with updatedAt := 10, completedAt := some 10 } = some 10 :=
  updateTask_terminal_restamps_completedAt exDb1 10 "t1"
    { status := some TaskStatus.completed } TaskStatus.completed exTask1
    (by decide) rfl (Or.inl rfl)
    { exTask1 with updatedAt := 10, completedAt := some 10 } (by decide) (by decide)

/-! Claim C9: dependenciesMet of a nonexistent task. -/

/-- C9: for a task id with no stored task, checkDependenciesMet returns true —
the missing-task check shares the early-true branch with the
zero-dependencies check, so the check is fail-open for the task itself. -/
theorem checkDependenciesMet_missing_task (db : Database) (taskId : String)
    (hmissing : db.getTask taskId = none) :
    db.checkDependenciesMet taskId = true := by
  unfold Database.checkDependenciesMet
  rw [hmissing]

/-- Witness: a store with one unrelated task still reports true for an id
that does not exist. -/
theorem checkDependenciesMet_missing_task_witness :
    exDb1.checkDependenciesMet "no-such-task" = true :=
  checkDependenciesMet_missing_task exDb1 "no-such-task" (by decide)

/-! Claim C10: ttlSeconds = 0 means no expiry. -/

/-- C10: a memory entry written with ttlSeconds = 0 gets expiresAt = null,
exactly as if no ttl had been given (the JavaScript truthiness guard
`if (params.ttlSeconds)` treats 0 like null), so the entry is never swept
rather than immediately expired. -/
theorem createMemoryEntry_zero_ttl (now : Int) (newId key value nspace : String)
    (createdBy : Option String) :
    (Models.createMemoryEntry now newId key value nspace createdBy (some 0)).expiresAt
        = none ∧
      (Models.createMemoryEntry now newId key value nspace createdBy (some 0)).ttlSeconds
        = some 0 ∧
      (Models.createMemoryEntry now newId key value nspace createdBy (some 0)).expiresAt
        = (Models.createMemoryEntry now newId key value nspace createdBy none).expiresAt := by
  refine ⟨rfl, rfl, rfl⟩

/-! Claim C5: priority ordering of task listing. -/

/-- Tasks created in order low, urgent, normal, high (creation times
0, 1, 2, 3). -/
def exDb5 : Database :=
  { agents := []
    tasks := [Models.createTask 0 "t1" "A" "" TaskPriority.low none none [],
      Models.createTask 1 "t2" "B" "" TaskPriority.urgent none none [],
      Models.createTask 2 "t3" "C" "" TaskPriority.normal none none [],
      Models.createTask 3 "t4" "D" "" TaskPriority.high none none []]
    memory := []
    locks := [] }

/-- C5: listTasks always returns tasks ordered by priority rank (urgent=1,
high=2, normal=3, low=4) and, within equal rank, by creation time ascending;
in particular, tasks created with priorities [low, urgent, normal, high] in
that order come back in order [urgent, high, normal, low]. -/
theorem listTasks_priority_order :
    (∀ (db : Database) (f : TaskFilters), List.Sorted taskLe (db.listTasks f)) ∧
      (exDb5.listTasks {}).map Task.id = ["t2", "t4", "t3", "t1"] := by
  constructor
  · intro db f
    unfold Database.listTasks
    exact List.sorted_insertionSort taskLe _
  · decide

/-! Claim C6: unregistering an agent releases every lock it holds. -/

/-- Agent a1 holds locks on R1 and R2; agent b1 holds a lock on R3. -/
def exDb6 : Database :=
  { agents :=
      [{ id := "a1", name := "alice", role := AgentRole.sub, status := AgentStatus.idle,
         capabilities := [], registeredAt := 0, lastHeartbeat := 0 }]
    tasks := []
    memory := []
    locks :=
      [{ id := "l1", resource := "R1", heldBy := "a1", acquiredAt := 0, expiresAt := none },
       { id := "l2", resource := "R2", heldBy := "a1", acquiredAt := 0, expiresAt := none },
       { id := "l3", resource := "R3", heldBy := "b1", acquiredAt := 0, expiresAt := none }] }

/-- C6: deleteAgent releases every lock held by the agent (unconditionally,
a no-op if it holds none) before deleting the agent row, so afterwards no
lock with heldBy = agent remains and no agent row with that id remains; in
the concrete store exDb6, agent a1 holding R1 and R2 leaves both resources
reporting unlocked while b1's lock on R3 survives. -/
theorem deleteAgent_releases_locks :
    (∀ (db : Database) (agentId : String),
        (∀ l ∈ (db.deleteAgent agentId).2.locks, l.heldBy ≠ agentId) ∧
          ∀ a ∈ (db.deleteAgent agentId).2.agents, a.id ≠ agentId) ∧
      ((exDb6.deleteAgent "a1").2.checkLock 0 "R1").1 = none ∧
      ((exDb6.deleteAgent "a1").2.checkLock 0 "R2").1 = none ∧
      ((exDb6.deleteAgent "a1").2.locks).map Lock.resource = ["R3"] := by
  refine ⟨fun db agentId => ⟨fun l hl => ?_, fun a ha => ?_⟩, by decide, by decide, by decide⟩
  · unfold Database.deleteAgent Database.releaseAgentLocks at hl
    simp only [List.mem_filter, Bool.not_eq_eq_eq_not, Bool.not_true,
      decide_eq_false_iff_not] at hl
    exact hl.2
  · unfold Database.deleteAgent Database.releaseAgentLocks at ha
    simp only [List.mem_filter, Bool.not_eq_eq_eq_not, Bool.not_true,
      decide_eq_false_iff_not] at ha
    exact ha.2

/-- Witness for C6 applied at exDb6: the surviving lock l3 is not held by a1. -/
theorem deleteAgent_releases_locks_witness :
    Lock.heldBy { id := "l3", resource := "R3", heldBy := "b1", acquiredAt := 0, expiresAt := none }
      ≠ "a1" :=
  (deleteAgent_releases_locks.1 exDb6 "a1").1
    { id := "l3", resource := "R3", heldBy := "b1", acquiredAt := 0, expiresAt := none }
    (by decide)

/-! Claim C4: registration is idempotent by name. -/

/-- C4: registering a name that already exists is a reconnect: the result
carries the existing agent's id and name, the agent is marked active with its
heartbeat refreshed, and no agent row is added (so no second agent with that
name is ever created). -/
theorem agent_register_idempotent (db : Database) (now : Int) (newId name : String)
    (role : AgentRole) (caps : List String) (a : Agent)
    (hexisting : db.getAgentByName name = some a) :
    (agent_register db now newId name role caps).1
        = RegisterResult.reconnected a.id a.name ∧
      (agent_register db now newId name role caps).2.agents.countP
          (fun x => decide (x.name = name))
        = db.agents.countP (fun x => decide (x.name = name)) ∧
      (agent_register db now newId name role caps).2.agents.length
        = db.agents.length ∧
      ∀ x ∈ (agent_register db now newId name role caps).2.agents, x.id = a.id →
        x.status = AgentStatus.active ∧ x.lastHeartbeat = now := by
  unfold agent_register
  rw [hexisting]
  simp only [Database.updateAgentHeartbeat]
  refine ⟨by trivial, ?_, by simp, ?_⟩
  · rw [List.countP_map]
    refine List.countP_congr (fun x _ => ?_)
    by_cases h : x.id = a.id <;> simp [h, Function.comp]
  · intro x hx hid
    simp only [List.mem_map] at hx
    obtain ⟨y, _, rfl⟩ := hx
    by_cases h : y.id = a.id
    · simp [h]
    · rw [if_neg h] at hid ⊢
      exact absurd hid h

/-- Witness for C4: reconnecting the name alice in a one-agent store returns
the existing id and adds no agent row. -/
theorem agent_register_idempotent_witness :
    (agent_register exDb6 9 "a2" "alice" AgentRole.sub []).1
        = RegisterResult.reconnected "a1" "alice" ∧
      (agent_register exDb6 9 "a2" "alice" AgentRole.sub []).2.agents.countP
          (fun x => decide (x.name = "alice"))
        = exDb6.agents.countP (fun x => decide (x.name = "alice")) ∧
      (agent_register exDb6 9 "a2" "alice" AgentRole.sub []).2.agents.length
        = exDb6.agents.length :=
  have h := agent_register_idempotent exDb6 9 "a2" "alice" AgentRole.sub []
    { id := "a1", name := "alice", role := AgentRole.sub, status := AgentStatus.idle,
      capabilities := [], registeredAt := 0, lastHeartbeat := 0 }
    (by decide)
  ⟨h.1, h.2.1, h.2.2.1⟩

/-- Witness for C5's universal part: the sortedness of the listing at the
concrete store exDb5. -/
theorem listTasks_priority_order_witness :
    List.Sorted taskLe (exDb5.listTasks {}) :=
  listTasks_priority_order.1 exDb5 {}

/-! Claim C3: dependency gating. -/

/-- A dependency task that is still in_progress. -/
def exD1Task : Task :=
  { (Models.createTask 0 "d1" "D" "" TaskPriority.normal none none []) with
      status := TaskStatus.inProgress }

/-- An urgent task gated behind d1. -/
def exG1Task : Task :=
  { (Models.createTask 1 "g1" "G" "" TaskPriority.urgent none none []) with
      dependencies := ["d1"] }

/-- Store with the incomplete dependency d1 and the gated task g1. -/
def exDb3 : Database := { agents := [], tasks := [exD1Task, exG1Task], memory := [], locks := [] }

/-- C3: a task with a dependency that is missing or not completed has
checkDependenciesMet = false, is never the task returned by
getNextAvailableTask, and a direct task_claim of it answers depsNotMet and
leaves the store unchanged. -/
theorem dependency_gating (db : Database) (t : Task) (d : String)
    (hget : db.getTask t.id = some t)
    (hd : d ∈ t.dependencies)
    (hdep : ∀ dt, db.getTask d = some dt → dt.status ≠ TaskStatus.completed) :
    db.checkDependenciesMet t.id = false ∧
      (∀ agentId, db.getNextAvailableTask agentId ≠ some t) ∧
      ∀ (agentId : String) (now : Int),
        (task_claim db now (some agentId) (some t.id)).1 = TaskClaimResult.depsNotMet ∧
          (task_claim db now (some agentId) (some t.id)).2 = db := by
  have hfalse : db.checkDependenciesMet t.id = false := by
    unfold Database.checkDependenciesMet
    rw [hget]
    have hne : t.dependencies.isEmpty = false :=
      List.isEmpty_eq_false.mpr (List.ne_nil_of_mem hd)
    simp only [hne, Bool.false_eq_true, if_false, List.all_eq_false]
    refine ⟨d, hd, ?_⟩
    cases hdd : db.getTask d with
    | none => simp
    | some dt => simp [hdep dt hdd]
  refine ⟨hfalse, fun agentId hfind => ?_, fun agentId now => ?_⟩
  · unfold Database.getNextAvailableTask at hfind
    have := List.find?_some hfind
    simp only [hfalse] at this
    exact Bool.false_ne_true this
  · unfold task_claim
    simp only [hget, hfalse]
    exact ⟨rfl, rfl⟩

/-- Witness for C3: in the concrete store exDb3, g1 depends on d1 which is
still in_progress, so g1 cannot be claimed despite its urgent priority. -/
theorem dependency_gating_witness :
    exDb3.checkDependenciesMet "g1" = false ∧
      (task_claim exDb3 5 (some "a1") (some "g1")).1 = TaskClaimResult.depsNotMet :=
  have h := dependency_gating exDb3 exG1Task "d1" (by decide) (by decide)
    (fun dt hdt => by
      have h2 : some exD1Task = some dt :=
        (by decide : exDb3.getTask "d1" = some exD1Task).symm.trans hdt
      injection h2 with h3
      rw [← h3]
      decide)
  ⟨h.1, (h.2.2 "a1" 5).1⟩

/-! Claim C7: an expired memory entry is never observed. -/

/-- A memory entry whose expiry (at 1000 ms) has already passed at read time. -/
def exMem7 : MemoryEntry :=
  { id := "m1", key := "k", value := "v", nspace := "default", createdBy := none,
    ttlSeconds := some 1, createdAt := 0, updatedAt := 0, expiresAt := some 1000 }

/-- Store holding just the expired entry exMem7. -/
def exDb7 : Database := { agents := [], tasks := [], memory := [exMem7], locks := [] }

/-- C7: an entry whose expiresAt is non-null and in the past at the time of
the call is invisible to both reads — getMemory returns none and listMemory
omits it — because both run the expiry sweep before selecting; the uniqueness
hypothesis mirrors the UNIQUE(namespace, key) constraint of the schema. -/
theorem expired_memory_not_observed (db : Database) (now : Int)
    (e : MemoryEntry) (x : Int)
    (_hmem : e ∈ db.memory)
    (hexp : e.expiresAt = some x)
    (hpast : x < now)
    (huniq : ∀ y ∈ db.memory, y.nspace = e.nspace → y.key = e.key → y = e) :
    (db.getMemory now e.key e.nspace).1 = none ∧
      e ∉ (db.listMemory now e.nspace).1 := by
  have hgone : ∀ y ∈ (db.cleanupExpiredMemory now).memory,
      y.nspace = e.nspace → y.key = e.key → False := by
    intro y hy hns hk
    unfold Database.cleanupExpiredMemory at hy
    rw [List.mem_filter] at hy
    have hye : y = e := huniq y hy.1 hns hk
    have hkept := hy.2
    rw [hye, hexp] at hkept
    simp [hpast] at hkept
  constructor
  · unfold Database.getMemory
    simp only [List.find?_eq_none]
    intro y hy
    simp only [Bool.and_eq_true, decide_eq_true_eq, not_and]
    exact fun hns hk => absurd (hgone y hy hns hk) not_false
  · unfold Database.listMemory
    simp only [List.mem_insertionSort, List.mem_filter, decide_eq_true_eq, not_and]
    exact fun hy hns => hgone e hy rfl rfl

/-- Witness for C7 at the concrete store exDb7, read at time 2000 ms. -/
theorem expired_memory_not_observed_witness :
    (exDb7.getMemory 2000 "k" "default").1 = none :=
  (expired_memory_not_observed exDb7 2000 exMem7 1000 (by decide) rfl (by decide)
    (by decide)).1

/-! Claim C8: memory set is a full-replace upsert keyed by (namespace, key). -/

/-- C8: after any setMemory, every stored row at the written (namespace, key)
carries the new value, the new ttlSeconds, updatedAt = the write time, and an
expiresAt computed from the write time and the new ttl alone — whether the
write inserted or hit the ON CONFLICT update path — so a second set fully
replaces value, ttl, and expiresAt rather than extending or merging. -/
theorem setMemory_full_replace (db : Database) (now : Int)
    (newId key value nspace : String) (createdBy : Option String)
    (ttl : Option Int) :
    ∀ x ∈ (db.setMemory now newId key value nspace createdBy ttl).2.memory,
      x.nspace = nspace → x.key = key →
        x.value = value ∧ x.updatedAt = now ∧ x.ttlSeconds = ttl ∧
          x.expiresAt = (match ttl with
            | some s => if s = 0 then none else some (now + s * 1000)
            | none => none) := by
  intro x hx hns hk
  unfold Database.setMemory at hx
  by_cases hc : db.memory.any (fun y => decide (y.nspace = nspace) && decide (y.key = key))
  · rw [if_pos hc] at hx
    simp only [List.mem_map] at hx
    obtain ⟨y, _, rfl⟩ := hx
    by_cases hm : y.nspace = nspace ∧ y.key = key
    · rw [if_pos hm]
      exact ⟨rfl, rfl, rfl, rfl⟩
    · rw [if_neg hm] at hns hk ⊢
      exact absurd ⟨hns, hk⟩ hm
  · rw [if_neg hc] at hx
    simp only [List.mem_append, List.mem_singleton] at hx
    cases hx with
    | inl hold =>
      rw [Bool.not_eq_true, List.any_eq_false] at hc
      have := hc x hold
      simp [hns, hk] at this
    | inr hnew =>
      rw [hnew]
      exact ⟨rfl, rfl, rfl, rfl⟩

/-- The row exMem7 becomes after a second set at 5000 ms with a 10 s ttl. -/
def exMem7b : MemoryEntry :=
  { exMem7 with
      value := "w", updatedAt := 5000, ttlSeconds := some 10, expiresAt := some 15000 }

/-- Witness for C8: overwriting the entry of exDb7 at time 5000 with a
10-second ttl yields a row with the new value, ttl, and expiry 15000. -/
theorem setMemory_full_replace_witness :
    exMem7b.value = "w" ∧ exMem7b.expiresAt = some 15000 :=
  have h := setMemory_full_replace exDb7 5000 "m2" "k" "w" "default" (some "b") (some 10)
    exMem7b (by decide) (by decide) (by decide)
  ⟨h.1, h.2.2.2⟩

/-! Claim C2: acquiring a resource already held by a live lock. -/

/-- C2: when a live (unexpired) lock l holds the resource, any agent's
lock_acquire leaves the lock table exactly as the expiry sweep left it (the
held lock survives untouched), and the outcome is never a success: another
agent gets denied carrying the holder's id, the holder itself gets the
already-held answer; at the storage layer, acquireLock returns the null
conflict outcome for any caller and inserts nothing. The uniqueness
hypothesis mirrors the UNIQUE constraint on the resource column. -/
theorem lock_acquire_held_denied (db : Database) (now : Int) (newId : String)
    (agentId resource : String) (timeout : Option Int) (l : Lock)
    (hl : l ∈ db.locks) (hres : l.resource = resource)
    (hlive : ∀ x, l.expiresAt = some x → ¬x < now)
    (huniq : ∀ y ∈ db.locks, y.resource = resource → y = l) :
    ((lock_acquire db now newId (some agentId) resource timeout).1
          = LockAcquireResult.denied l.heldBy ∨
        (agentId = l.heldBy ∧
          (lock_acquire db now newId (some agentId) resource timeout).1
            = LockAcquireResult.alreadyHeldByYou)) ∧
      (lock_acquire db now newId (some agentId) resource timeout).2.locks
        = (db.cleanupExpiredLocks now).locks ∧
      l ∈ (lock_acquire db now newId (some agentId) resource timeout).2.locks ∧
      ∀ heldBy2 : String,
        (db.acquireLock now newId resource heldBy2 timeout).1 = none ∧
          (db.acquireLock now newId resource heldBy2 timeout).2.locks
            = (db.cleanupExpiredLocks now).locks := by
  have hkeep : l ∈ (db.cleanupExpiredLocks now).locks := by
    unfold Database.cleanupExpiredLocks
    rw [List.mem_filter]
    refine ⟨hl, ?_⟩
    cases hE : l.expiresAt with
    | none => rfl
    | some x => simp [hlive x hE]
  have hfind : (db.cleanupExpiredLocks now).locks.find?
      (fun k => decide (k.resource = resource)) = some l := by
    cases hf : (db.cleanupExpiredLocks now).locks.find?
        (fun k => decide (k.resource = resource)) with
    | none =>
      rw [List.find?_eq_none] at hf
      exact absurd (by simp [hres]) (hf l hkeep)
    | some y =>
      have hy := List.find?_some hf
      have hym : y ∈ db.locks := by
        have := List.mem_of_find?_eq_some hf
        unfold Database.cleanupExpiredLocks at this
        exact (List.mem_filter.mp this).1
      rw [huniq y hym (by simpa using hy)]
  have hany : (db.cleanupExpiredLocks now).locks.any
      (fun k => decide (k.resource = resource)) = true :=
    List.any_eq_true.mpr ⟨l, hkeep, by simp [hres]⟩
  have hacq : ∀ heldBy2 : String,
      db.acquireLock now newId resource heldBy2 timeout
        = (none, db.cleanupExpiredLocks now) := by
    intro heldBy2
    unfold Database.acquireLock
    rw [if_pos hany]
  have htool : lock_acquire db now newId (some agentId) resource timeout
      = if l.heldBy = agentId
          then (LockAcquireResult.alreadyHeldByYou, db.cleanupExpiredLocks now)
          else (LockAcquireResult.denied l.heldBy, db.cleanupExpiredLocks now) := by
    unfold lock_acquire Database.checkLock
    simp only [hfind]
  refine ⟨?_, ?_, ?_, fun heldBy2 => ⟨by rw [hacq heldBy2], by rw [hacq heldBy2]⟩⟩
  · by_cases hba : l.heldBy = agentId
    · exact Or.inr ⟨hba.symm, by rw [htool, if_pos hba]⟩
    · exact Or.inl (by rw [htool, if_neg hba])
  · by_cases hba : l.heldBy = agentId
    · rw [htool, if_pos hba]
    · rw [htool, if_neg hba]
  · by_cases hba : l.heldBy = agentId
    · rw [htool, if_pos hba]; exact hkeep
    · rw [htool, if_neg hba]; exact hkeep

/-- A live, unbounded lock on resource R held by agent a1. -/
def exLock2 : Lock := { id := "l1", resource := "R", heldBy := "a1", acquiredAt := 0, expiresAt := none }

/-- Store holding just exLock2. -/
def exDb2 : Database := { agents := [], tasks := [], memory := [], locks := [exLock2] }

/-- Witness for C2: agent a2 acquiring R while a1 holds it is denied with
a1's id, and the lock survives. -/
theorem lock_acquire_held_denied_witness :
    ((lock_acquire exDb2 5 "l2" (some "a2") "R" (some 300)).1
          = LockAcquireResult.denied "a1" ∨
        ("a2" = "a1" ∧
          (lock_acquire exDb2 5 "l2" (some "a2") "R" (some 300)).1
            = LockAcquireResult.alreadyHeldByYou)) ∧
      exLock2 ∈ (lock_acquire exDb2 5 "l2" (some "a2") "R" (some 300)).2.locks :=
  have h := lock_acquire_held_denied exDb2 5 "l2" "a2" "R" (some 300) exLock2
    (by decide) rfl (fun x hx => Option.noConfusion hx) (by decide)
  ⟨h.1, h.2.2.1⟩

end Orch
